import Mathlib

set_option maxRecDepth 4096

/-!
Verification of the conversational relay bot (`src/main.rs`) against its
natural-language specification.

The embedding below models the pure core of the program:

* strings on the wire are modelled as their UTF-8 byte sequences (`List Nat`),
  so that the 2000-byte prompt window and the Rust char-boundary slicing
  semantics are captured exactly;
* the per-user session store (`Handler::chat_histories`) is a map from user id
  to an optional transcript;
* the completion backend is an oracle (`BackendResponse`) supplying either a
  transport failure, a body that does not decode as JSON, or a decoded JSON
  value;
* `Handler::chat` (main.rs lines 114-171) is a state transformer producing an
  outcome, the updated store, and the outbound request body it built;
  a Rust panic (an `expect` failure or an out-of-boundary string slice) is
  modelled by the distinguished outcome `ChatResult.crashed` respectively by
  `relevant_history_with_prompt` returning `none`;
* the legacy text command parser (`Handler::handle_message`, lines 283-337)
  is modelled over `List Char` exactly as Rust iterates `char`s, including
  `str::splitn(3, char::is_whitespace)` semantics;
* the timing logger (`Handler::show_time`, lines 102-112) is modelled as the
  log line it formats.
-/

/-- Bytes (UTF-8) of an ASCII string literal (every literal fed to this helper
is ASCII, for which the code points coincide with the UTF-8 bytes). -/
def asciiBytes (s : String) : List Nat := s.data.map Char.toNat

/-- Containment: `occurs_in sub l` means `sub` appears contiguously inside `l`
(substring containment on byte/char sequences). -/
def occurs_in {α : Type} (sub l : List α) : Prop := ∃ x y, l = x ++ sub ++ y

theorem occurs_in_length_le {α : Type} {sub l : List α} (h : occurs_in sub l) :
    sub.length ≤ l.length := by
  obtain ⟨x, y, rfl⟩ := h
  simp only [List.length_append]
  omega

/-- The session store: `Handler.chat_histories` (main.rs line 76), a map from
user id to the transcript of that user. `none` means no entry for the user. -/
def Store : Type := Nat → Option (List Nat)

def empty_store : Store := fun _ => none

/-- Model of `Handler::clear` (main.rs lines 173-177): removes the entry of the user. -/
def clear (st : Store) (user_id : Nat) : Store :=
  fun u => if u = user_id then none else st u

/-- Source main.rs line 127: `const MAX_PROMPT_LEN: usize = 2000`. -/
def MAX_PROMPT_LEN : Nat := 2000

/-- Source main.rs line 132: `format!("{saved_history}\n\nPrompt from {user_name}: {prompt}")`,
as UTF-8 bytes. -/
def history_and_prompt (saved_history user_name prompt : List Nat) : List Nat :=
  saved_history ++ asciiBytes "\n\nPrompt from " ++ user_name ++ asciiBytes ": " ++ prompt

/-- Source main.rs lines 133-137: the start index of the trailing window. -/
def slice_prompt_start (saved_history user_name prompt : List Nat) : Nat :=
  if (history_and_prompt saved_history user_name prompt).length > MAX_PROMPT_LEN then
    (history_and_prompt saved_history user_name prompt).length - MAX_PROMPT_LEN
  else
    0

/-- Rust `str::is_char_boundary`: true at 0 and at the length; at an interior
index, true iff the byte there is not a UTF-8 continuation byte (0x80..0xBF). -/
def is_char_boundary (bs : List Nat) (i : Nat) : Bool :=
  if i = 0 then
    true
  else
    match bs.get? i with
    | some b => decide (b < 0x80 ∨ 0xC0 ≤ b)
    | none => decide (i = bs.length)

/-- Source main.rs line 138: `history_and_prompt[slice_prompt_start..]`. Rust string
slicing panics when the start index is not a char boundary; the panic is
modelled as `none`. -/
def relevant_history_with_prompt (saved_history user_name prompt : List Nat) :
    Option (List Nat) :=
  if is_char_boundary (history_and_prompt saved_history user_name prompt)
      (slice_prompt_start saved_history user_name prompt) then
    some ((history_and_prompt saved_history user_name prompt).drop
      (slice_prompt_start saved_history user_name prompt))
  else
    none

/-- JSON values as produced by `serde_json` (numbers restricted to the
integers actually occurring in this program). -/
inductive Json where
  | null : Json
  | bool (b : Bool) : Json
  | num (n : Int) : Json
  | str (s : List Nat) : Json
  | arr (xs : List Json) : Json
  | obj (fields : List (String × Json)) : Json

/-- Lookup `serde_json::Map::get`. -/
def map_get (fields : List (String × Json)) (key : String) : Option Json :=
  match fields.find? (fun f => f.fst == key) with
  | some f => some f.snd
  | none => none

def as_object : Json → Option (List (String × Json))
  | Json.obj fields => some fields
  | _ => none

def as_array : Json → Option (List Json)
  | Json.arr xs => some xs
  | _ => none

def as_str : Json → Option (List Nat)
  | Json.str s => some s
  | _ => none

/-- Source main.rs lines 159-166: the unchecked field traversal
`outcome.as_object().expect(..).get("choices").expect(..)...as_str().expect(..)`.
`none` models the `expect` panic of the code on a structurally unexpected body. -/
def choice_0_text (outcome : Json) : Option (List Nat) := do
  let o ← as_object outcome
  let choices ← map_get o "choices"
  let xs ← as_array choices
  let c0 ← xs.get? 0
  let o0 ← as_object c0
  let t ← map_get o0 "text"
  as_str t

/-- A structurally well-formed completion response, `{choices: [{text: t}]}`. -/
def good_response (t : List Nat) : Json :=
  Json.obj [("choices", Json.arr [Json.obj [("text", Json.str t)]])]

/-- Source main.rs lines 91-99: `build_completion`. Note the `model` field is the
fixed string `"text-davinci-003"`; the function takes only the prompt. -/
def build_completion (prompt : List Nat) : Json :=
  Json.obj
    [ ("model", Json.str (asciiBytes "text-davinci-003"))
    , ("prompt", Json.str prompt)
    , ("max_tokens", Json.num 500)
    , ("suffix", Json.null)
    , ("n", Json.num 1) ]

/-- The completion backend as an oracle: the network send fails, or the body
fails to decode as JSON, or a decoded JSON value is produced. -/
inductive BackendResponse where
  | transportFail : BackendResponse
  | badBody : BackendResponse
  | json (j : Json) : BackendResponse

/-- Outcome of `Handler::chat`: the `Ok` text, an `Err` with optional
user-facing message, or a Rust panic (`crashed`). -/
inductive ChatResult where
  | ok (text : List Nat) : ChatResult
  | err (user_message : Option (List Nat)) : ChatResult
  | crashed : ChatResult
deriving DecidableEq

structure ChatOut where
  result : ChatResult
  store : Store
  request : Option Json

/-- Source main.rs line 168: the exchange record appended to the transcript on
success, `format!("\n\n{user_name}: {prompt}\n{model}: {choice_0_text}")`. -/
def exchange_record (user_name prompt model text : List Nat) : List Nat :=
  asciiBytes "\n\n" ++ user_name ++ asciiBytes ": " ++ prompt ++
    asciiBytes "\n" ++ model ++ asciiBytes ": " ++ text

/-- Model of `Handler::chat` (main.rs lines 114-171) as a state transformer.

Step by step, following the source:
* lines 117-120: look up or create the session of the user (`entry(..).or_default()`);
* lines 129-139: clone the transcript and assemble the windowed prompt
  (a slice off a char boundary panics → `crashed`, no request built);
* lines 141-148: build the request body and send it; a transport error is
  `Err(None)` (generic failure);
* lines 150-156: a body that does not decode as JSON is `Err(None)`;
* lines 159-166: unchecked extraction of `choices[0].text` — a structurally
  unexpected body panics (`crashed`);
* line 168: only on success, append the exchange record to the session;
* line 170: return the extracted text. -/
def chat (st : Store) (user_id : Nat) (user_name model prompt : List Nat)
    (backend : BackendResponse) : ChatOut :=
  let transcript := (st user_id).getD []
  let st1 : Store := fun u => if u = user_id then some transcript else st u
  match relevant_history_with_prompt transcript user_name prompt with
  | none => ⟨ChatResult.crashed, st1, none⟩
  | some assembled =>
    let body := build_completion assembled
    match backend with
    | BackendResponse.transportFail => ⟨ChatResult.err none, st1, some body⟩
    | BackendResponse.badBody => ⟨ChatResult.err none, st1, some body⟩
    | BackendResponse.json j =>
      match choice_0_text j with
      | none => ⟨ChatResult.crashed, st1, some body⟩
      | some text =>
        ⟨ChatResult.ok text,
         fun u => if u = user_id then
             some (transcript ++ exchange_record user_name prompt model text)
           else st u,
         some body⟩

/-- Source main.rs lines 207/270: `e0.as_ref().map(..).unwrap_or("An error occurred")` —
the reply text shown to the user for a failed handler. -/
def user_facing_message (e : Option (List Nat)) : List Nat :=
  e.getD (asciiBytes "An error occurred")

/-- Rust `char::is_whitespace` (the Unicode `White_Space` property), used by
`splitn(3, |c: char| c.is_whitespace())` at main.rs line 294. -/
def is_whitespace (c : Char) : Bool :=
  let n := c.toNat
  (0x9 ≤ n && n ≤ 0xD) || n == 0x20 || n == 0x85 || n == 0xA0 || n == 0x1680 ||
    (0x2000 ≤ n && n ≤ 0x200A) || n == 0x2028 || n == 0x2029 || n == 0x202F ||
    n == 0x205F || n == 0x3000

/-- Split a char sequence at the first char satisfying `p`, returning the
parts before and after it; `none` when no char matches. -/
def splitFirst (p : Char → Bool) : List Char → Option (List Char × List Char)
  | [] => none
  | c :: cs =>
    if p c then some ([], cs)
    else (splitFirst p cs).map (fun ab => (c :: ab.fst, ab.snd))

/-- Rust `str::splitn(n, p)`: at most `n` pieces, the last piece being the
unsplit remainder. -/
def splitn (p : Char → Bool) : Nat → List Char → List (List Char)
  | 0, _ => []
  | 1, l => [l]
  | n + 2, l =>
    match splitFirst p l with
    | none => [l]
    | some ab => ab.fst :: splitn p (n + 1) ab.snd

/-- Rust `str::starts_with` on char sequences (first argument is the text,
second the pattern). -/
def starts_with : List Char → List Char → Bool
  | _, [] => true
  | [], _ :: _ => false
  | c :: cs, d :: ds => c == d && starts_with cs ds

/-- What `Handler::handle_message` (main.rs lines 283-337) decides to do with
a message body: clear the history, ignore the message, fail validation with a
user-facing message, or proceed to the backend call with a model and prompt. -/
inductive MsgAction where
  | cleared : MsgAction
  | ignored : MsgAction
  | validationFailure (message : List Char) : MsgAction
  | backendCall (model prompt : List Char) : MsgAction
deriving DecidableEq

/-- Source main.rs line 300. -/
def model_missing_msg : List Char :=
  "Model should be present and be one of: `davinci`, `curie`, `babbage`, and `ada`.".data

/-- Source main.rs line 304. -/
def model_not_allowed_msg (m : List Char) : List Char :=
  "Model should be one of: `davinci`, `curie`, `babbage`, and `ada`. Found `".data ++
    m ++ "`.".data

/-- Source main.rs line 308. -/
def only_davinci_msg (m : List Char) : List Char :=
  "Only `davinci` works. Found `".data ++ m ++ "`.".data

/-- Source main.rs line 313. -/
def prompt_needed_msg : List Char :=
  "A prompt is needed to give to the AI.".data

/-- Source main.rs line 302: the enumerated model allow-list. -/
def allowed_models : List (List Char) :=
  ["davinci".data, "curie".data, "babbage".data, "ada".data]

/-- Model of `Handler::handle_message` (main.rs lines 283-337), reduced to the decision
it reaches.  The line-302 check `[..].iter().all(|s| &model != s)` is membership
failure in `allowed_models`. -/
def handle_message (content : List Char) : MsgAction :=
  if content = "-clear".data then MsgAction.cleared
  else if starts_with content "-chat ".data then
    let pieces := splitn is_whitespace 3 content
    match pieces.get? 1 with
    | none => MsgAction.validationFailure model_missing_msg
    | some model =>
      if model ∉ allowed_models then
        MsgAction.validationFailure (model_not_allowed_msg model)
      else if model ≠ "davinci".data then
        MsgAction.validationFailure (only_davinci_msg model)
      else
        match pieces.get? 2 with
        | none => MsgAction.validationFailure prompt_needed_msg
        | some prompt => MsgAction.backendCall model prompt
  else MsgAction.ignored

/-- Source main.rs line 104: `diff.num_nanoseconds().unwrap_or(-1)` — the nanosecond
count clamped to `-1` when it does not fit an `i64`. -/
def diff_ns (ns : Int) : Int :=
  if -(2 ^ 63) ≤ ns ∧ ns ≤ 2 ^ 63 - 1 then ns else -1

/-- Model of `Handler::show_time` (main.rs lines 102-112): the single log line it
formats for a duration of `ns` nanoseconds.  Durations of at most one second
get a millisecond rendering (`num_milliseconds` truncates toward zero);
longer durations get the placeholder `parsing_todo`. -/
def show_time (ui src data : String) (ns : Int) : String :=
  if ns ≤ 1000000000 then
    "TIMING ui=" ++ ui ++ " " ++ (src ++ "=" ++ data) ++ " " ++
      ("duration=" ++ toString (diff_ns ns) ++ "ns") ++ " " ++
      ("human=" ++ toString (Int.tdiv ns 1000000) ++ "ms")
  else
    "TIMING ui=" ++ ui ++ " " ++ (src ++ "=" ++ data) ++ " " ++
      ("duration=" ++ toString (diff_ns ns) ++ "ns") ++ " " ++
      "human=parsing_todo"

/-- The event kinds dispatched in `EventHandler::message` and
`EventHandler::interaction_create` (main.rs lines 377-424). -/
inductive EventKind where
  | ping : EventKind
  | modalsub : EventKind
  | autocomp : EventKind
  | msgcomp : EventKind
  | appcomm : EventKind
  | classic : EventKind
deriving DecidableEq

/-- The ui tag assigned to each event kind (main.rs lines 382, 399-421). -/
def ui_tag : EventKind → String
  | EventKind.ping => "discord_ping"
  | EventKind.modalsub => "discord_modalsub"
  | EventKind.autocomp => "discord_autocomp"
  | EventKind.msgcomp => "discord_msgcomp"
  | EventKind.appcomm => "discord_appcomm"
  | EventKind.classic => "discord_classic"

/-- The entity label: message events log `message={id}`, interaction events
log `interaction={id}` (main.rs lines 389, 423). -/
def source_tag : EventKind → String
  | EventKind.classic => "message"
  | _ => "interaction"

/-- The timing log lines emitted for one handled event: exactly the one
`show_time` call at the end of the handler (main.rs lines 389, 423). -/
def event_timing_lines (k : EventKind) (entity_id : Nat) (ns : Int) : List String :=
  [show_time (ui_tag k) (source_tag k) (toString entity_id) ns]

example : relevant_history_with_prompt [] (asciiBytes "n") (asciiBytes "p")
    = some (asciiBytes "\n\nPrompt from n: p") := by decide

example : choice_0_text (good_response [104]) = some [104] := by decide

example : handle_message "-chat davinci hello world".data
    = MsgAction.backendCall "davinci".data "hello world".data := by decide

example : handle_message "-chat davinci ".data
    = MsgAction.backendCall "davinci".data [] := by decide

example : handle_message "-chat davinci".data
    = MsgAction.validationFailure prompt_needed_msg := by decide

example : handle_message "-chat curie x".data
    = MsgAction.validationFailure (only_davinci_msg "curie".data) := by decide

example : handle_message "-chat gpt x".data
    = MsgAction.validationFailure (model_not_allowed_msg "gpt".data) := by decide

example : handle_message "-clear".data = MsgAction.cleared := by decide

example : handle_message "hello".data = MsgAction.ignored := by decide

/-! ### Helper lemmas on the prompt assembler and `chat` -/

theorem asciiBytes_length (s : String) : (asciiBytes s).length = s.data.length := by
  simp [asciiBytes]

theorem rhwp_of_short {T N P : List Nat}
    (h : (history_and_prompt T N P).length ≤ MAX_PROMPT_LEN) :
    relevant_history_with_prompt T N P = some (history_and_prompt T N P) := by
  have hs : slice_prompt_start T N P = 0 := by
    unfold slice_prompt_start
    rw [if_neg]
    omega
  unfold relevant_history_with_prompt
  rw [hs]
  simp [is_char_boundary]

theorem chat_ok_inv {st : Store} {u : Nat} {nm mo p t : List Nat} {b : BackendResponse}
    (h : (chat st u nm mo p b).result = ChatResult.ok t) :
    (chat st u nm mo p b).store u = some ((st u).getD [] ++ exchange_record nm p mo t) := by
  unfold chat at h ⊢
  cases hr : relevant_history_with_prompt ((st u).getD []) nm p with
  | none => simp [hr] at h
  | some assembled =>
    cases b with
    | transportFail => simp [hr] at h
    | badBody => simp [hr] at h
    | json j =>
      cases hc : choice_0_text j with
      | none => simp [hr, hc] at h
      | some text =>
        simp [hr, hc] at h ⊢
        rw [h]

theorem chat_request_eq {st : Store} {u : Nat} {nm mo p a : List Nat} {b : BackendResponse}
    (ha : relevant_history_with_prompt ((st u).getD []) nm p = some a) :
    (chat st u nm mo p b).request = some (build_completion a) := by
  unfold chat
  cases b with
  | transportFail => simp [ha]
  | badBody => simp [ha]
  | json j =>
    cases hc : choice_0_text j with
    | none => simp [ha, hc]
    | some text => simp [ha, hc]

theorem chat_failure_inv {st : Store} {u : Nat} {nm mo p a : List Nat} {b : BackendResponse}
    (ha : relevant_history_with_prompt ((st u).getD []) nm p = some a)
    (hb : b = BackendResponse.transportFail ∨ b = BackendResponse.badBody) :
    (chat st u nm mo p b).result = ChatResult.err none ∧
      (chat st u nm mo p b).store u = some ((st u).getD []) := by
  rcases hb with rfl | rfl <;> · unfold chat; simp [ha]

/-! ### Helper lemmas on the legacy text parser -/

theorem splitFirst_app (p : Char → Bool) (l : List Char) (c0 : Char) (r : List Char)
    (hl : ∀ c ∈ l, p c = false) (hc : p c0 = true) :
    splitFirst p (l ++ c0 :: r) = some (l, r) := by
  induction l with
  | nil => simp [splitFirst, hc]
  | cons a as ih =>
    have ha : p a = false := hl a (by simp)
    have ih2 := ih (fun c hmem => hl c (by simp [hmem]))
    simp [splitFirst, ha, ih2]

theorem starts_with_app (pat l : List Char) : starts_with (pat ++ l) pat = true := by
  induction pat with
  | nil => cases l <;> rfl
  | cons c cs ih => simp [starts_with, ih]

theorem splitn_two_step (p : Char → Bool) (n : Nat) (l : List Char) :
    splitn p (n + 2) l =
      match splitFirst p l with
      | none => [l]
      | some ab => ab.fst :: splitn p (n + 1) ab.snd := rfl

/-- The pieces `handle_message` sees for a body of the shape
`-chat<ws0>{model}<ws1>{rest}` where the model token has no whitespace:
Rust `splitn(3, is_whitespace)` yields the command word, the model token,
and the unsplit remainder. -/
theorem splitn_chat_form (m rest : List Char) (c1 : Char)
    (h1 : is_whitespace c1 = true) (hm : ∀ c ∈ m, is_whitespace c = false) :
    splitn is_whitespace 3 ("-chat ".data ++ m ++ c1 :: rest)
      = ["-chat".data, m, rest] := by
  have hsplit1 : splitFirst is_whitespace ("-chat ".data ++ m ++ c1 :: rest)
      = some ("-chat".data, m ++ c1 :: rest) := by
    have harr : "-chat ".data ++ m ++ c1 :: rest
        = "-chat".data ++ ' ' :: (m ++ c1 :: rest) := by
      have hd : ("-chat ".data : List Char) = "-chat".data ++ [' '] := by decide
      rw [hd]
      simp
    rw [harr]
    exact splitFirst_app _ _ _ _ (by decide) (by decide)
  have hsplit2 : splitFirst is_whitespace (m ++ c1 :: rest) = some (m, rest) :=
    splitFirst_app _ _ _ _ hm h1
  rw [show (3 : Nat) = 1 + 2 from rfl, splitn_two_step, hsplit1]
  show "-chat".data :: splitn is_whitespace (1 + 1) (m ++ c1 :: rest) = _
  rw [show (1 + 1 : Nat) = 0 + 2 from rfl, splitn_two_step, hsplit2]
  rfl

/-- Evaluating `handle_message` on a body of the shape `-chat<ws>{model}<ws>{rest}`:
the decision is determined by the model token. -/
theorem handle_message_chat_form (m rest : List Char) (c1 : Char)
    (h1 : is_whitespace c1 = true) (hm : ∀ c ∈ m, is_whitespace c = false) :
    handle_message ("-chat ".data ++ m ++ c1 :: rest) =
      (if m ∉ allowed_models then MsgAction.validationFailure (model_not_allowed_msg m)
       else if m ≠ "davinci".data then MsgAction.validationFailure (only_davinci_msg m)
       else MsgAction.backendCall m rest) := by
  have hne : "-chat ".data ++ m ++ c1 :: rest ≠ "-clear".data := by
    intro h
    have hlen := congrArg List.length h
    simp only [List.length_append, List.length_cons] at hlen
    have h6 : ("-chat ".data : List Char).length = 6 := by decide
    have h7 : ("-clear".data : List Char).length = 6 := by decide
    omega
  have hstart : starts_with ("-chat ".data ++ m ++ c1 :: rest) "-chat ".data = true := by
    have harr : "-chat ".data ++ m ++ c1 :: rest = "-chat ".data ++ (m ++ c1 :: rest) := by
      simp
    rw [harr]
    exact starts_with_app _ _
  unfold handle_message
  rw [if_neg hne, if_pos hstart, splitn_chat_form m rest c1 h1 hm]
  rfl

/-! ### Claim theorems -/

/-- Claim C1 (code bug): the code does not surface a recoverable failure on a
structurally unexpected completion-response body — it panics.  Evaluating
`Handler::chat` on each of the shapes the claim lists (missing `choices`,
empty `choices`, first choice without `text`, non-string `text`) reaches the
unchecked `expect` chain of main.rs lines 159-166 and aborts (`crashed`),
instead of returning the `Err(None)` generic failure the claim requires. -/
theorem chat_malformed_response_crashes :
    (chat empty_store 0 (asciiBytes "n") (asciiBytes "davinci") (asciiBytes "p")
        (BackendResponse.json (Json.obj []))).result = ChatResult.crashed ∧
    (chat empty_store 0 (asciiBytes "n") (asciiBytes "davinci") (asciiBytes "p")
        (BackendResponse.json (Json.obj [("choices", Json.arr [])]))).result
      = ChatResult.crashed ∧
    (chat empty_store 0 (asciiBytes "n") (asciiBytes "davinci") (asciiBytes "p")
        (BackendResponse.json (Json.obj [("choices", Json.arr [Json.obj []])]))).result
      = ChatResult.crashed ∧
    (chat empty_store 0 (asciiBytes "n") (asciiBytes "davinci") (asciiBytes "p")
        (BackendResponse.json
          (Json.obj [("choices", Json.arr [Json.obj [("text", Json.num 0)]])]))).result
      = ChatResult.crashed := by
  refine ⟨?_, ?_, ?_, ?_⟩ <;> decide

/-- A transcript starting with a two-byte UTF-8 character (`é` = 0xC3 0xA9)
padded so that the assembled prompt is 2001 bytes long: the 2000-byte window
cut point (index 1) falls inside the character. -/
def boundary_breaking_transcript : List Nat := 195 :: 169 :: List.replicate 1981 98

/-- Claim C2 (counterexample): with transcript `é` + 1981 × `b`, name `n` and
prompt `p`, the concatenation is 2001 bytes (> 2000), but the text sent does
NOT equal the trailing 2000-byte slice — the slice start splits the
two-byte character, so the code panics and sends nothing. -/
theorem windowing_exact_slice_counterexample :
    2000 < (history_and_prompt boundary_breaking_transcript [110] [112]).length ∧
    relevant_history_with_prompt boundary_breaking_transcript [110] [112] ≠
      some ((history_and_prompt boundary_breaking_transcript [110] [112]).drop
        ((history_and_prompt boundary_breaking_transcript [110] [112]).length - 2000)) := by
  have hlen : (history_and_prompt boundary_breaking_transcript [110] [112]).length = 2001 := by
    unfold history_and_prompt boundary_breaking_transcript
    simp only [List.length_append, List.length_cons, List.length_replicate, asciiBytes_length]
    decide
  have hstart : slice_prompt_start boundary_breaking_transcript [110] [112] = 1 := by
    unfold slice_prompt_start MAX_PROMPT_LEN
    rw [hlen, if_pos (by omega)]
  have hbd : is_char_boundary (history_and_prompt boundary_breaking_transcript [110] [112]) 1
      = false := by
    unfold is_char_boundary
    rw [if_neg (by omega)]
    have hg : (history_and_prompt boundary_breaking_transcript [110] [112]).get? 1
        = some 169 := rfl
    rw [hg]
    decide
  have hn : relevant_history_with_prompt boundary_breaking_transcript [110] [112] = none := by
    unfold relevant_history_with_prompt
    rw [hstart, hbd]
    simp
  refine ⟨by omega, ?_⟩
  rw [hn]
  simp

/-- Claim C2 (amended): for every transcript `T`, display name `N` and prompt
`P`, the assembler forms `T ++ "\n\nPrompt from " ++ N ++ ": " ++ P`;
provided the computed cut point is a valid UTF-8 character boundary, the text
sent equals the full concatenation when its byte length is at most 2000, and
its trailing 2000-byte slice when it exceeds 2000 (when the cut point splits
a multi-byte character, the code instead panics — see the counterexample). -/
theorem windowing_exact_slice (T N P : List Nat)
    (h : is_char_boundary (history_and_prompt T N P) (slice_prompt_start T N P) = true) :
    relevant_history_with_prompt T N P =
      some ((history_and_prompt T N P).drop (slice_prompt_start T N P)) ∧
    ((history_and_prompt T N P).length ≤ 2000 →
      relevant_history_with_prompt T N P = some (history_and_prompt T N P)) ∧
    (2000 < (history_and_prompt T N P).length →
      slice_prompt_start T N P = (history_and_prompt T N P).length - 2000) := by
  refine ⟨?_, ?_, ?_⟩
  · unfold relevant_history_with_prompt
    rw [if_pos h]
  · intro hle
    exact rhwp_of_short hle
  · intro hgt
    unfold slice_prompt_start MAX_PROMPT_LEN
    rw [if_pos]
    omega

theorem windowing_exact_slice_witness :
    relevant_history_with_prompt (asciiBytes "earlier talk") (asciiBytes "n") (asciiBytes "p") =
      some (history_and_prompt (asciiBytes "earlier talk") (asciiBytes "n") (asciiBytes "p")) :=
  ((windowing_exact_slice (asciiBytes "earlier talk") (asciiBytes "n") (asciiBytes "p")
    (by decide)).2.1 (by decide))

/-- A transcript starting with a two-byte UTF-8 character (`é`) padded with
1981 × `a`, making the assembled prompt 2001 bytes with cut point 1. -/
def panic_transcript : List Nat := 195 :: 169 :: List.replicate 1981 97

/-- Claim C3 (code bug): prompt assembly is NOT total.  On a transcript whose
trailing-window cut point splits a multi-byte character, the concatenation is
2001 bytes, the cut point is 1, index 1 is not a character boundary, and the
slice `history_and_prompt[1..]` of main.rs line 138 panics (modelled `none`)
instead of clamping to a valid boundary as the specification requires. -/
theorem prompt_assembly_panics_on_split_char :
    (history_and_prompt panic_transcript [110] [112]).length = 2001 ∧
    slice_prompt_start panic_transcript [110] [112] = 1 ∧
    is_char_boundary (history_and_prompt panic_transcript [110] [112]) 1 = false ∧
    relevant_history_with_prompt panic_transcript [110] [112] = none := by
  have hlen : (history_and_prompt panic_transcript [110] [112]).length = 2001 := by
    unfold history_and_prompt panic_transcript
    simp only [List.length_append, List.length_cons, List.length_replicate, asciiBytes_length]
    decide
  have hstart : slice_prompt_start panic_transcript [110] [112] = 1 := by
    unfold slice_prompt_start MAX_PROMPT_LEN
    rw [hlen, if_pos (by omega)]
  have hbd : is_char_boundary (history_and_prompt panic_transcript [110] [112]) 1 = false := by
    unfold is_char_boundary
    rw [if_neg (by omega)]
    have hg : (history_and_prompt panic_transcript [110] [112]).get? 1 = some 169 := rfl
    rw [hg]
    decide
  refine ⟨hlen, hstart, hbd, ?_⟩
  unfold relevant_history_with_prompt
  rw [hstart, hbd]
  simp

/-- Claim C4: when the completion backend call fails (transport failure or a
body that does not decode as JSON), the transcript of the requesting user is
byte-for-byte unchanged and the user receives the generic failure reply
("An error occurred"): `Handler::chat` returns `Err(None)` before the only
append site (main.rs line 168), and `handle_message_and_errors` /
`handle_appcomm_and_errors` map `None` to the generic message. -/
theorem backend_failure_preserves_transcript (st : Store) (u : Nat)
    (nm mo p a : List Nat) (b : BackendResponse)
    (ha : relevant_history_with_prompt ((st u).getD []) nm p = some a)
    (hb : b = BackendResponse.transportFail ∨ b = BackendResponse.badBody) :
    (chat st u nm mo p b).result = ChatResult.err none ∧
    (∀ c, st u = some c → (chat st u nm mo p b).store u = some c) ∧
    (∀ e, (chat st u nm mo p b).result = ChatResult.err e →
      user_facing_message e = asciiBytes "An error occurred") := by
  obtain ⟨h1, h2⟩ := chat_failure_inv ha hb
  refine ⟨h1, ?_, ?_⟩
  · intro c hc
    rw [h2, hc]
    rfl
  · intro e he
    rw [h1] at he
    cases he
    rfl

theorem backend_failure_preserves_transcript_witness :
    (chat (fun v => if v = 0 then some (asciiBytes "old talk") else none) 0
        (asciiBytes "n") (asciiBytes "davinci") (asciiBytes "p")
        BackendResponse.transportFail).result = ChatResult.err none ∧
    (chat (fun v => if v = 0 then some (asciiBytes "old talk") else none) 0
        (asciiBytes "n") (asciiBytes "davinci") (asciiBytes "p")
        BackendResponse.transportFail).store 0 = some (asciiBytes "old talk") := by
  have h := backend_failure_preserves_transcript
    (fun v => if v = 0 then some (asciiBytes "old talk") else none) 0
    (asciiBytes "n") (asciiBytes "davinci") (asciiBytes "p")
    (asciiBytes "old talk\n\nPrompt from n: p")
    BackendResponse.transportFail
    (by decide) (Or.inl rfl)
  exact ⟨h.1, h.2.1 (asciiBytes "old talk") rfl⟩

/-- Claim C5 (counterexample): the model identifier passed in is `davinci`,
yet the `model` field of the request body is the fixed string
`text-davinci-003` — `build_completion` (main.rs lines 91-99) takes only the
prompt and hardcodes the model, so the body does not carry the model passed
to the chat operation. -/
theorem request_model_field_counterexample :
    (chat empty_store 0 (asciiBytes "n") (asciiBytes "davinci") (asciiBytes "p")
        (BackendResponse.json (good_response (asciiBytes "r")))).request =
      some (Json.obj
        [ ("model", Json.str (asciiBytes "text-davinci-003"))
        , ("prompt", Json.str (asciiBytes "\n\nPrompt from n: p"))
        , ("max_tokens", Json.num 500)
        , ("suffix", Json.null)
        , ("n", Json.num 1) ]) ∧
    asciiBytes "text-davinci-003" ≠ asciiBytes "davinci" := by
  constructor
  · rfl
  · decide

/-- Claim C5 (amended): the outbound request body is
`{model: "text-davinci-003" (fixed), prompt, max_tokens: 500, suffix: null,
n: 1}`, where `prompt` is the assembled text; the model identifier passed to
the chat operation does not appear in the body. -/
theorem request_body_shape (st : Store) (u : Nat) (nm mo p a : List Nat)
    (b : BackendResponse) (body : Json)
    (ha : relevant_history_with_prompt ((st u).getD []) nm p = some a)
    (h : (chat st u nm mo p b).request = some body) :
    body = Json.obj
      [ ("model", Json.str (asciiBytes "text-davinci-003"))
      , ("prompt", Json.str a)
      , ("max_tokens", Json.num 500)
      , ("suffix", Json.null)
      , ("n", Json.num 1) ] := by
  rw [chat_request_eq ha] at h
  cases h
  rfl

/-- Claim C6: for a legacy text message `-chat <model> <prompt...>` (model
token free of whitespace), the model gating of the router: a model outside the
four enumerated identifiers fails validation with a message naming the value
and no backend call is made; one of the three non-enabled identifiers fails
with the "Only `davinci` works" message and no backend call; the enabled
identifier `davinci` proceeds to the backend call (main.rs lines 294-314). -/
theorem legacy_model_gating (m rest : List Char)
    (hm : ∀ c ∈ m, is_whitespace c = false) :
    (m ∉ allowed_models →
      handle_message ("-chat ".data ++ m ++ ' ' :: rest) =
        MsgAction.validationFailure (model_not_allowed_msg m) ∧
      ∀ mo p, handle_message ("-chat ".data ++ m ++ ' ' :: rest) ≠
        MsgAction.backendCall mo p) ∧
    (m ∈ ["curie".data, "babbage".data, "ada".data] →
      handle_message ("-chat ".data ++ m ++ ' ' :: rest) =
        MsgAction.validationFailure (only_davinci_msg m) ∧
      ∀ mo p, handle_message ("-chat ".data ++ m ++ ' ' :: rest) ≠
        MsgAction.backendCall mo p) ∧
    (m = "davinci".data →
      handle_message ("-chat ".data ++ m ++ ' ' :: rest) =
        MsgAction.backendCall m rest) := by
  have hform := handle_message_chat_form m rest ' ' (by decide) hm
  refine ⟨?_, ?_, ?_⟩
  · intro hnotin
    rw [hform, if_pos hnotin]
    exact ⟨rfl, fun mo p h => by cases h⟩
  · intro hmem
    have hmem3 : m = "curie".data ∨ m = "babbage".data ∨ m = "ada".data := by
      simpa using hmem
    have hin : m ∈ allowed_models := by
      rcases hmem3 with h | h | h <;> · rw [h]; decide
    have hnd : m ≠ "davinci".data := by
      rcases hmem3 with h | h | h <;> · rw [h]; decide
    rw [hform, if_neg (by simp [hin]), if_pos hnd]
    exact ⟨rfl, fun mo p h => by cases h⟩
  · intro hdav
    rw [hform, if_neg (by rw [hdav]; decide), if_neg (by simp [hdav])]

theorem legacy_model_gating_witness :
    handle_message ("-chat ".data ++ "gpt4".data ++ ' ' :: "hello".data) =
      MsgAction.validationFailure (model_not_allowed_msg "gpt4".data) ∧
    handle_message ("-chat ".data ++ "curie".data ++ ' ' :: "hello".data) =
      MsgAction.validationFailure (only_davinci_msg "curie".data) ∧
    handle_message ("-chat ".data ++ "davinci".data ++ ' ' :: "hello".data) =
      MsgAction.backendCall "davinci".data "hello".data :=
  ⟨((legacy_model_gating "gpt4".data "hello".data (by decide)).1 (by decide)).1,
   ((legacy_model_gating "curie".data "hello".data (by decide)).2.1 (by decide)).1,
   (legacy_model_gating "davinci".data "hello".data (by decide)).2.2 rfl⟩

/-- Claim C10: a legacy message consisting of `-chat`, the enabled model and
one trailing whitespace character parses the prompt as the empty string and
proceeds to the backend call (the third `splitn` piece is the empty unsplit
remainder), while the missing-prompt validation failure fires exactly when
no third piece exists at all (`-chat davinci` with no trailing separator). -/
theorem legacy_trailing_whitespace_empty_prompt :
    (∀ c : Char, is_whitespace c = true →
      handle_message ("-chat ".data ++ "davinci".data ++ c :: []) =
        MsgAction.backendCall "davinci".data []) ∧
    handle_message "-chat davinci".data =
      MsgAction.validationFailure prompt_needed_msg := by
  constructor
  · intro c hc
    rw [handle_message_chat_form "davinci".data [] c hc (by decide)]
    decide
  · decide

theorem legacy_trailing_whitespace_empty_prompt_witness :
    handle_message ("-chat ".data ++ "davinci".data ++ ' ' :: []) =
      MsgAction.backendCall "davinci".data [] :=
  legacy_trailing_whitespace_empty_prompt.1 ' ' (by decide)

theorem request_body_shape_witness :
    build_completion (asciiBytes "\n\nPrompt from n: p") = Json.obj
      [ ("model", Json.str (asciiBytes "text-davinci-003"))
      , ("prompt", Json.str (asciiBytes "\n\nPrompt from n: p"))
      , ("max_tokens", Json.num 500)
      , ("suffix", Json.null)
      , ("n", Json.num 1) ] :=
  request_body_shape empty_store 0 (asciiBytes "n") (asciiBytes "davinci")
    (asciiBytes "p") (asciiBytes "\n\nPrompt from n: p")
    BackendResponse.transportFail
    (build_completion (asciiBytes "\n\nPrompt from n: p"))
    (by decide) rfl

/-- Claim C7: `clear(U)` followed by a successful `chat(U, davinci, P)`
leaves the transcript of U consisting of exactly the one exchange record
`\n\n{display_name}: {P}\n{model}: {reply}` and nothing else: `clear`
removes the map entry, `chat` recreates an empty session and appends the
single record only on success (main.rs lines 173-177, 117-170). -/
theorem clear_then_chat_single_exchange (st : Store) (u : Nat) (nm p t : List Nat)
    (b : BackendResponse)
    (h : (chat (clear st u) u nm (asciiBytes "davinci") p b).result = ChatResult.ok t) :
    (chat (clear st u) u nm (asciiBytes "davinci") p b).store u
      = some (exchange_record nm p (asciiBytes "davinci") t) := by
  have hinv := chat_ok_inv h
  have hcl : (clear st u) u = none := by simp [clear]
  rw [hcl] at hinv
  simpa using hinv

theorem clear_then_chat_single_exchange_witness :
    (chat (clear empty_store 0) 0 (asciiBytes "n") (asciiBytes "davinci")
        (asciiBytes "hi") (BackendResponse.json (good_response (asciiBytes "r")))).store 0
      = some (exchange_record (asciiBytes "n") (asciiBytes "hi")
          (asciiBytes "davinci") (asciiBytes "r")) :=
  clear_then_chat_single_exchange empty_store 0 (asciiBytes "n") (asciiBytes "hi")
    (asciiBytes "r") (BackendResponse.json (good_response (asciiBytes "r"))) (by decide)

/-- Claim C8 (amended): after a successful `chat(U, m, "hi")`, a subsequent
`chat(U, m, "again")` assembles a prompt that contains the recorded text of the
first exchange, provided the concatenation of the updated transcript with the
new prompt line does not exceed the 2000-byte window (otherwise the trailing
window slice can cut the record off — see the counterexample). -/
theorem chat_context_carryover (st : Store) (u : Nat) (nm mo t : List Nat)
    (b1 b2 : BackendResponse)
    (h1 : (chat st u nm mo (asciiBytes "hi") b1).result = ChatResult.ok t)
    (h2 : (history_and_prompt (((chat st u nm mo (asciiBytes "hi") b1).store u).getD [])
        nm (asciiBytes "again")).length ≤ 2000) :
    (chat ((chat st u nm mo (asciiBytes "hi") b1).store) u nm mo (asciiBytes "again")
        b2).request
      = some (build_completion (history_and_prompt
          (((chat st u nm mo (asciiBytes "hi") b1).store u).getD []) nm
          (asciiBytes "again"))) ∧
    occurs_in (exchange_record nm (asciiBytes "hi") mo t)
      (history_and_prompt (((chat st u nm mo (asciiBytes "hi") b1).store u).getD [])
        nm (asciiBytes "again")) := by
  have hst := chat_ok_inv h1
  constructor
  · exact chat_request_eq (rhwp_of_short h2)
  · rw [hst]
    unfold history_and_prompt
    refine ⟨(st u).getD [],
      asciiBytes "\n\nPrompt from " ++ nm ++ asciiBytes ": " ++ asciiBytes "again", ?_⟩
    simp [List.append_assoc]

theorem chat_context_carryover_witness :
    occurs_in (exchange_record (asciiBytes "n") (asciiBytes "hi")
        (asciiBytes "davinci") (asciiBytes "r"))
      (history_and_prompt (((chat empty_store 0 (asciiBytes "n") (asciiBytes "davinci")
          (asciiBytes "hi") (BackendResponse.json (good_response (asciiBytes "r")))).store
            0).getD [])
        (asciiBytes "n") (asciiBytes "again")) :=
  (chat_context_carryover empty_store 0 (asciiBytes "n") (asciiBytes "davinci")
    (asciiBytes "r") (BackendResponse.json (good_response (asciiBytes "r")))
    BackendResponse.transportFail (by decide) (by decide)).2

/-- The reply of the first exchange in the C8 counterexample: 2100 bytes of `a`,
large enough that the recorded exchange alone exceeds the 2000-byte window. -/
def big_reply : List Nat := List.replicate 2100 97

def first_out : ChatOut :=
  chat empty_store 0 (asciiBytes "n") (asciiBytes "davinci") (asciiBytes "hi")
    (BackendResponse.json (good_response big_reply))

def first_record : List Nat :=
  exchange_record (asciiBytes "n") (asciiBytes "hi") (asciiBytes "davinci") big_reply

/-- Claim C8 (counterexample): with a successful first `chat(U, davinci,
"hi")` whose reply is 2100 bytes, the transcript holds the 2117-byte exchange
record, but the assembled prompt of the second call is the trailing 2000-byte
slice of the 2139-byte concatenation — too short to contain the record, so
the claim as stated fails. -/
theorem chat_context_carryover_counterexample :
    first_out.result = ChatResult.ok big_reply ∧
    first_out.store 0 = some first_record ∧
    relevant_history_with_prompt first_record (asciiBytes "n") (asciiBytes "again")
      = some ((history_and_prompt first_record (asciiBytes "n")
          (asciiBytes "again")).drop 139) ∧
    ¬ occurs_in first_record
        ((history_and_prompt first_record (asciiBytes "n") (asciiBytes "again")).drop 139) := by
  have hlenrec : first_record.length = 2117 := by
    unfold first_record exchange_record big_reply
    simp only [List.length_append, List.length_replicate, asciiBytes_length]
    decide
  have hlenhp : (history_and_prompt first_record (asciiBytes "n")
      (asciiBytes "again")).length = 2139 := by
    unfold history_and_prompt
    simp only [List.length_append, asciiBytes_length]
    rw [hlenrec]
    decide
  have hstart : slice_prompt_start first_record (asciiBytes "n") (asciiBytes "again")
      = 139 := by
    unfold slice_prompt_start MAX_PROMPT_LEN
    rw [hlenhp, if_pos (by omega)]
  have hbd : is_char_boundary (history_and_prompt first_record (asciiBytes "n")
      (asciiBytes "again")) 139 = true := by
    unfold is_char_boundary
    rw [if_neg (by omega)]
    have hg : (history_and_prompt first_record (asciiBytes "n")
        (asciiBytes "again")).get? 139 = some 97 := rfl
    rw [hg]
    decide
  refine ⟨rfl, rfl, ?_, ?_⟩
  · unfold relevant_history_with_prompt
    rw [hstart, hbd]
    simp
  · intro hocc
    have hle := occurs_in_length_le hocc
    rw [hlenrec, List.length_drop, hlenhp] at hle
    omega

theorem string_data_append (s t : String) : (s ++ t).data = s.data ++ t.data := by
  cases s
  cases t
  rfl

/-- Claim C9: each handled event emits exactly one timing log line; it
contains the ui-kind tag, the entity identifier (after `interaction=` or
`message=`), and the nanosecond duration; when the duration is at most one
second the line additionally carries a millisecond rendering, and for longer
durations the human-readable field is only the `parsing_todo` placeholder
next to the raw nanosecond value (main.rs lines 102-112, 389, 423). -/
theorem event_timing_line_shape (k : EventKind) (entity_id : Nat) (ns : Int) :
    (event_timing_lines k entity_id ns).length = 1 ∧
    ∀ line ∈ event_timing_lines k entity_id ns,
      occurs_in (ui_tag k).data line.data ∧
      occurs_in (source_tag k ++ "=" ++ toString entity_id).data line.data ∧
      occurs_in ("duration=" ++ toString (diff_ns ns) ++ "ns").data line.data ∧
      (ns ≤ 1000000000 →
        occurs_in ("human=" ++ toString (Int.tdiv ns 1000000) ++ "ms").data line.data) ∧
      (1000000000 < ns → occurs_in ("human=parsing_todo").data line.data) := by
  refine ⟨rfl, ?_⟩
  intro line hline
  have hl : line = show_time (ui_tag k) (source_tag k) (toString entity_id) ns := by
    simpa [event_timing_lines] using hline
  subst hl
  by_cases hns : ns ≤ 1000000000
  · have hst : show_time (ui_tag k) (source_tag k) (toString entity_id) ns
        = "TIMING ui=" ++ ui_tag k ++ " " ++
            (source_tag k ++ "=" ++ toString entity_id) ++ " " ++
            ("duration=" ++ toString (diff_ns ns) ++ "ns") ++ " " ++
            ("human=" ++ toString (Int.tdiv ns 1000000) ++ "ms") := by
      unfold show_time
      rw [if_pos hns]
    rw [hst]
    refine ⟨?_, ?_, ?_, fun _ => ?_, fun hgt => absurd hns (by omega)⟩
    · exact ⟨"TIMING ui=".data,
        (" " ++ (source_tag k ++ "=" ++ toString entity_id) ++ " " ++
          ("duration=" ++ toString (diff_ns ns) ++ "ns") ++ " " ++
          ("human=" ++ toString (Int.tdiv ns 1000000) ++ "ms")).data,
        by simp [string_data_append, List.append_assoc]⟩
    · exact ⟨("TIMING ui=" ++ ui_tag k ++ " ").data,
        (" " ++ ("duration=" ++ toString (diff_ns ns) ++ "ns") ++ " " ++
          ("human=" ++ toString (Int.tdiv ns 1000000) ++ "ms")).data,
        by simp [string_data_append, List.append_assoc]⟩
    · exact ⟨("TIMING ui=" ++ ui_tag k ++ " " ++
          (source_tag k ++ "=" ++ toString entity_id) ++ " ").data,
        (" " ++ ("human=" ++ toString (Int.tdiv ns 1000000) ++ "ms")).data,
        by simp [string_data_append, List.append_assoc]⟩
    · exact ⟨("TIMING ui=" ++ ui_tag k ++ " " ++
          (source_tag k ++ "=" ++ toString entity_id) ++ " " ++
          ("duration=" ++ toString (diff_ns ns) ++ "ns") ++ " ").data,
        ([] : List Char),
        by simp [string_data_append, List.append_assoc]⟩
  · have hst : show_time (ui_tag k) (source_tag k) (toString entity_id) ns
        = "TIMING ui=" ++ ui_tag k ++ " " ++
            (source_tag k ++ "=" ++ toString entity_id) ++ " " ++
            ("duration=" ++ toString (diff_ns ns) ++ "ns") ++ " " ++
            "human=parsing_todo" := by
      unfold show_time
      rw [if_neg hns]
    rw [hst]
    refine ⟨?_, ?_, ?_, fun hle => absurd hle hns, fun _ => ?_⟩
    · exact ⟨"TIMING ui=".data,
        (" " ++ (source_tag k ++ "=" ++ toString entity_id) ++ " " ++
          ("duration=" ++ toString (diff_ns ns) ++ "ns") ++ " " ++
          "human=parsing_todo").data,
        by simp [string_data_append, List.append_assoc]⟩
    · exact ⟨("TIMING ui=" ++ ui_tag k ++ " ").data,
        (" " ++ ("duration=" ++ toString (diff_ns ns) ++ "ns") ++ " " ++
          "human=parsing_todo").data,
        by simp [string_data_append, List.append_assoc]⟩
    · exact ⟨("TIMING ui=" ++ ui_tag k ++ " " ++
          (source_tag k ++ "=" ++ toString entity_id) ++ " ").data,
        (" " ++ "human=parsing_todo").data,
        by simp [string_data_append, List.append_assoc]⟩
    · exact ⟨("TIMING ui=" ++ ui_tag k ++ " " ++
          (source_tag k ++ "=" ++ toString entity_id) ++ " " ++
          ("duration=" ++ toString (diff_ns ns) ++ "ns") ++ " ").data,
        ([] : List Char),
        by simp [string_data_append, List.append_assoc]⟩

theorem event_timing_line_shape_witness :
    occurs_in ("human=" ++ toString (Int.tdiv (5 : Int) 1000000) ++ "ms").data
      (show_time (ui_tag EventKind.appcomm) (source_tag EventKind.appcomm)
        (toString (7 : Nat)) 5).data := by
  have h := event_timing_line_shape EventKind.appcomm 7 5
  exact (h.2 _ (by simp [event_timing_lines])).2.2.2.1 (by omega)
